import Mathlib

/-!
Shallow embedding of the alarm decision-and-reporting state machine of
`src/IoTAlarm.ino` (an M5Stack/ESP32 perimeter-alarm sketch), together with
theorems settling the specification claims about it.

The embedded state is the pair of global booleans `alarm_is_triggered` and
`alarm_is_enabled` (lines 27-28) plus the publish timestamp `send_interval_ms`
(line 34).  The four operations that touch this state are embedded as pure
functions:

* `HandleInterruptStopAlarm` (lines 44-52): the button interrupt;
* `DeviceMethodCallback` (lines 82-103): direct method invocations;
* `DeviceTwinCallback` (lines 105-139): twin/config document updates;
* `RunAlarm` (lines 195-224): one main-cycle iteration.

Hardware and cloud inputs (the echo pulse, `millis()`, the decoded JSON
document, the method name) become explicit arguments; the message handed to
`SendMessageToAzure` becomes an explicit `Option Msg` result.
-/

namespace IoTAlarm

/-- The two global alarm flags of the sketch (lines 27-28):
`bool alarm_is_triggered = false; bool alarm_is_enabled = false;`. -/
structure AlarmFlags where
  alarm_is_triggered : Bool
  alarm_is_enabled : Bool
deriving DecidableEq, Repr

/-- Boot value of the flags: both initializers are `false` (lines 27-28). -/
def bootFlags : AlarmFlags := ⟨false, false⟩

/-- Flag encoding of the Disabled state: alarm not enabled, not triggered. -/
def DisabledS : AlarmFlags := ⟨false, false⟩

/-- Flag encoding of the Armed state: alarm enabled, not triggered. -/
def ArmedS : AlarmFlags := ⟨false, true⟩

/-- Flag encoding of the Triggered state: alarm enabled and triggered. -/
def TriggeredS : AlarmFlags := ⟨true, true⟩

/-- Button interrupt handler `HandleInterruptStopAlarm` (lines 44-52): inside
the critical section it performs `alarm_is_triggered = false;` and nothing
else. -/
def HandleInterruptStopAlarm (s : AlarmFlags) : AlarmFlags :=
  { s with alarm_is_triggered := false }

/-- Result of one `DeviceMethodCallback` invocation: the flags after the call,
the returned result code, and the response written through `*response` with
its size `*response_size`. -/
structure MethodResult where
  flags : AlarmFlags
  result : Nat
  response : String
  response_size : Nat
deriving DecidableEq, Repr

/-- The constant `responseMessage` of `DeviceMethodCallback` (line 89). -/
def responseMessage : String := "\"Successfully invoke device method\""

/-- Method handler `DeviceMethodCallback` (lines 82-103): `result` starts at
200; the name `"stop"` clears `alarm_is_triggered`, any other name leaves the
flags alone and sets `result = 404`; in every case the response buffer is set
to `responseMessage` with `*response_size = strlen(responseMessage) + 1`. -/
def DeviceMethodCallback (s : AlarmFlags) (methodName : String) : MethodResult :=
  if methodName = "stop" then
    { flags := { s with alarm_is_triggered := false }
      result := 200
      response := responseMessage
      response_size := responseMessage.length + 1 }
  else
    { flags := s
      result := 404
      response := responseMessage
      response_size := responseMessage.length + 1 }

/-- Observable content of a twin/config document after
`json_buffer.parseObject` (lines 120-124), modelling the ArduinoJson v5
accessors used by the sketch: `flat` is the boolean at
`Enable/Disable.value` and `desired` the boolean at
`desired.Enable/Disable.value`, each `none` when the document is malformed
(parse failure) or the path is absent.  ArduinoJson v5 yields the default
value (`false` for a `bool` read, `NULL` for a `const char*` read) on a
missing path or a failed parse, so the sketch cannot distinguish a malformed
document from one without the field. -/
structure TwinDoc where
  flat : Option Bool
  desired : Option Bool
deriving DecidableEq, Repr

/-- Twin/config handler `DeviceTwinCallback` (lines 105-139).
`alarm_status` is first read from the flat path (`false` when absent,
line 121); if the desired path exists (the non-`NULL` test of line 124) its
value overrides it.  A truthy `alarm_status` sets `alarm_is_enabled = true`;
otherwise both `alarm_is_enabled` and `alarm_is_triggered` are set `false`
(lines 126-134).  Finally `send_interval_ms = millis()` (line 138); `now` is
the `millis()` value and the second component the new `send_interval_ms`. -/
def DeviceTwinCallback (s : AlarmFlags) (doc : TwinDoc) (now : Nat) :
    AlarmFlags × Nat :=
  let alarm_status := doc.flat.getD false
  let alarm_status := doc.desired.getD alarm_status
  if alarm_status then
    ({ s with alarm_is_enabled := true }, now)
  else
    (⟨false, false⟩, now)

/-- Arduino `pulseIn` (line 177) modelled on its documented contract: it
returns the measured pulse length in microseconds, or 0 if no pulse started
before the timeout.  `none` is the timeout case. -/
def pulseIn (echo : Option Nat) : Nat := echo.getD 0

/-- `FindSensorDistance` (lines 163-179): `return duration*0.034/2;` with
`duration = pulseIn(ECHO_PIN, HIGH)`, the result truncated to `int`.  The
double computation is modelled by the exact truncated quotient
`duration * 34 / 2000`; at the timeout value `duration = 0` (the input every
claim exercises) both are exactly 0. -/
def FindSensorDistance (echo : Option Nat) : Int :=
  ((pulseIn echo * 34) / 2000 : Nat)

/-- Messages handed to `SendMessageToAzure` by `RunAlarm`, named after the
three `snprintf` bodies (lines 201, 208, 210). -/
inductive Msg where
  | trigger
  | online
  | offline
deriving DecidableEq, Repr

/-- Exact wire text of each message (lines 201, 208, 210). -/
def Msg.text : Msg → String
  | .trigger => "\x7b\"alarm_status\":\"triggered\"\x7d\x7b\"status\":\"online\"\x7d"
  | .online => "\x7b\"status\":\"online\"\x7d"
  | .offline => "\x7b\"status\":\"offline\"\x7d"

/-- One main-cycle iteration `RunAlarm` (lines 195-224), with the sensed
distance (`FindSensorDistance()` at line 196), the current `millis()` value
and the current `send_interval_ms` as inputs.  Returns the new flags and the
message passed to `SendMessageToAzure`, if any.  Line 199 guards the trigger
branch with `distance < 70 && !alarm_is_triggered && alarm_is_enabled`;
otherwise line 203 sends a heartbeat when `millis() - send_interval_ms >
10000` (`send_interval_ms` holds an earlier `millis()` value, so the
unsigned subtraction is the plain difference).  `RunAlarm` never assigns
`send_interval_ms`. -/
def RunAlarm (s : AlarmFlags) (distance : Int) (now send_interval_ms : Nat) :
    AlarmFlags × Option Msg :=
  if distance < 70 ∧ s.alarm_is_triggered = false ∧ s.alarm_is_enabled = true then
    ({ s with alarm_is_triggered := true }, some Msg.trigger)
  else if now - send_interval_ms > 10000 then
    (s, some (if s.alarm_is_enabled then Msg.online else Msg.offline))
  else
    (s, none)

/-- The mutable state the four operations share: the two alarm flags and the
publish timestamp `send_interval_ms` (line 34, a zero-initialized static). -/
structure SysState where
  flags : AlarmFlags
  send_interval_ms : Nat
deriving DecidableEq, Repr

/-- Boot state: both flags `false` and `send_interval_ms = 0`. -/
def boot : SysState := ⟨bootFlags, 0⟩

/-- The four entry points that can touch the shared state, with their
external inputs. -/
inductive Event where
  | cycle (distance : Int) (now : Nat)
  | twin (doc : TwinDoc) (now : Nat)
  | method (name : String)
  | button
deriving DecidableEq, Repr

/-- Effect of one entry point on the shared state, together with the message
it hands to `SendMessageToAzure` (only `RunAlarm` publishes; the callbacks
and the interrupt do not). -/
def stepMsg (st : SysState) : Event → SysState × Option Msg
  | .cycle d now =>
      (⟨(RunAlarm st.flags d now st.send_interval_ms).1, st.send_interval_ms⟩,
        (RunAlarm st.flags d now st.send_interval_ms).2)
  | .twin doc now =>
      (⟨(DeviceTwinCallback st.flags doc now).1,
        (DeviceTwinCallback st.flags doc now).2⟩, none)
  | .method name =>
      (⟨(DeviceMethodCallback st.flags name).flags, st.send_interval_ms⟩, none)
  | .button =>
      (⟨HandleInterruptStopAlarm st.flags, st.send_interval_ms⟩, none)

/-- State part of `stepMsg`. -/
def step (st : SysState) (e : Event) : SysState := (stepMsg st e).1

/-- State reached from boot after a list of events. -/
def run (evs : List Event) : SysState := evs.foldl step boot

/-- A run of consecutive main-cycle iterations: each pair is the sensed
distance and the `millis()` value of one cycle; returns the final state and
the list of messages published along the way. -/
def runCycles (st : SysState) : List (Int × Nat) → SysState × List Msg
  | [] => (st, [])
  | p :: ps =>
      ((runCycles (stepMsg st (Event.cycle p.1 p.2)).1 ps).1,
        (stepMsg st (Event.cycle p.1 p.2)).2.toList ++
          (runCycles (stepMsg st (Event.cycle p.1 p.2)).1 ps).2)

/-- The implicit invariant relating the two flags: the alarm is never
triggered while disabled. -/
def AlarmInv (s : AlarmFlags) : Prop :=
  s.alarm_is_triggered = true → s.alarm_is_enabled = true

/-- RunAlarm never clears `alarm_is_triggered`: if the alarm is already
triggered, the cycle leaves the flags unchanged and does not publish the
trigger event (line 199 requires `!alarm_is_triggered`). -/
theorem RunAlarm_of_triggered (s : AlarmFlags) (d : Int) (now si : Nat)
    (h : s.alarm_is_triggered = true) :
    (RunAlarm s d now si).1 = s ∧ (RunAlarm s d now si).2 ≠ some Msg.trigger := by
  unfold RunAlarm
  split_ifs with h1 h2 h3 <;> simp_all

/-- A cycle publishes the trigger event exactly under the guard of line 199:
enabled, not already triggered, and distance below the 70 cm threshold. -/
theorem RunAlarm_trigger_iff (s : AlarmFlags) (d : Int) (now si : Nat) :
    (RunAlarm s d now si).2 = some Msg.trigger ↔
      s.alarm_is_enabled = true ∧ s.alarm_is_triggered = false ∧ d < 70 := by
  unfold RunAlarm
  rcases s with ⟨t, e⟩
  cases t <;> cases e <;> split_ifs <;> simp_all

/-- Each of the four entry points preserves the flag invariant. -/
theorem step_preserves_inv (st : SysState) (e : Event)
    (h : AlarmInv st.flags) : AlarmInv (step st e).flags := by
  unfold AlarmInv at h ⊢
  cases e with
  | cycle d now =>
      simp only [step, stepMsg]
      unfold RunAlarm
      split_ifs with h1 h2 h3 <;> intro ht <;> simp_all
  | twin doc now =>
      simp only [step, stepMsg, DeviceTwinCallback]
      split_ifs with h1 <;> intro ht <;> simp_all
  | method name =>
      simp only [step, stepMsg]
      unfold DeviceMethodCallback
      split_ifs with h1 <;> intro ht <;> simp_all
  | button =>
      simp only [step, stepMsg]
      unfold HandleInterruptStopAlarm
      intro ht
      simp_all

/-- The flag invariant is preserved along any event list. -/
theorem foldl_preserves_inv (evs : List Event) :
    ∀ st : SysState, AlarmInv st.flags → AlarmInv (evs.foldl step st).flags := by
  induction evs with
  | nil => exact fun st h => h
  | cons e evs ih =>
      intro st h
      exact ih (step st e) (step_preserves_inv st e h)

/-- C1: one step of the alarm logic — whatever the entry point and its inputs
(distance reading, pending ack via the button, remote command or config) —
never transitions the alarm into Triggered unless the current state is Armed
(enabled and not already triggered) and the new reading indicates intrusion
(distance < 70 cm); in particular the transition can only happen on a
main-cycle event. -/
theorem C1_trigger_requires_armed_and_intrusion (st : SysState) (e : Event)
    (h1 : (step st e).flags.alarm_is_triggered = true)
    (h0 : st.flags.alarm_is_triggered = false) :
    st.flags.alarm_is_enabled = true ∧
      ∃ d now, e = Event.cycle d now ∧ d < 70 := by
  cases e with
  | cycle d now =>
      simp only [step, stepMsg] at h1
      unfold RunAlarm at h1
      split_ifs at h1 with hc hh hm <;>
        first
          | exact ⟨hc.2.2, d, now, rfl, hc.1⟩
          | simp_all
  | twin doc now =>
      simp only [step, stepMsg, DeviceTwinCallback] at h1
      split_ifs at h1 with hc
      simp_all
  | method name =>
      simp only [step, stepMsg] at h1
      unfold DeviceMethodCallback at h1
      split_ifs at h1 with hc
      simp_all
  | button =>
      simp only [step, stepMsg] at h1
      unfold HandleInterruptStopAlarm at h1
      simp_all

/-- Witness for C1 at a concrete Armed state and intruding cycle. -/
theorem C1_witness :
    (SysState.mk ArmedS 0).flags.alarm_is_enabled = true ∧
      ∃ d now, Event.cycle 10 0 = Event.cycle d now ∧ d < 70 :=
  C1_trigger_requires_armed_and_intrusion ⟨ArmedS, 0⟩ (Event.cycle 10 0)
    (by decide) (by decide)

/-- C2 failing run: with the alarm Armed, no intrusion (distance 100 cm) and
`send_interval_ms = 0`, the cycles at `millis() = 20000` and
`millis() = 20100` both publish a heartbeat — two heartbeats 100 ms apart,
inside one 10000 ms window — and neither cycle updates `send_interval_ms`
(`RunAlarm` never assigns it; only `DeviceTwinCallback` does). -/
theorem C2_heartbeat_every_cycle_after_window :
    stepMsg ⟨ArmedS, 0⟩ (Event.cycle 100 20000) = (⟨ArmedS, 0⟩, some Msg.online) ∧
      stepMsg ⟨ArmedS, 0⟩ (Event.cycle 100 20100) =
        (⟨ArmedS, 0⟩, some Msg.online) ∧
      20100 - 20000 < 10000 := by
  decide

/-- C3 counterexample: on an echo-pulse timeout `pulseIn` yields 0, so
`FindSensorDistance` returns 0 — not a large distance — and a cycle in the
Armed state classifies it as intrusion and transitions into Triggered,
publishing the trigger event. -/
theorem C3_counterexample :
    FindSensorDistance none = 0 ∧
      (RunAlarm ArmedS (FindSensorDistance none) 0 0).1 = TriggeredS ∧
      (RunAlarm ArmedS (FindSensorDistance none) 0 0).2 = some Msg.trigger := by
  decide

/-- C3 amended: when the echo pulse times out the sampled distance is 0,
which is classified as intrusion (distance < 70); consequently a sensor
timeout transitions the alarm into Triggered exactly when the current state
is Armed (enabled and not already triggered). -/
theorem C3_amended_timeout_is_intrusion :
    FindSensorDistance none = 0 ∧
      ∀ (s : AlarmFlags) (now si : Nat),
        ((RunAlarm s (FindSensorDistance none) now si).1.alarm_is_triggered = true ∧
            s.alarm_is_triggered = false) ↔
          s.alarm_is_enabled = true ∧ s.alarm_is_triggered = false := by
  refine ⟨rfl, fun s now si => ?_⟩
  show ((RunAlarm s 0 now si).1.alarm_is_triggered = true ∧ _) ↔ _
  unfold RunAlarm
  rcases s with ⟨t, e⟩
  cases t <;> cases e <;> split_ifs <;> simp_all

/-- C4 counterexample: a document that fails to decode (both accessor paths
unreadable) processed while the alarm is Triggered does not leave the state
unchanged — it disables the alarm. -/
theorem C4_counterexample :
    DeviceTwinCallback TriggeredS ⟨none, none⟩ 5 = (DisabledS, 5) ∧
      DisabledS ≠ TriggeredS := by
  decide

/-- C4 amended: a config document that fails to decode (malformed document or
missing Enable/Disable field) reads the enable value as its `false` default,
so processing it always disables the alarm — both flags become `false` and
`send_interval_ms` is reset to `now` — rather than leaving the state
unchanged. -/
theorem C4_amended_decode_failure_disables (s : AlarmFlags) (now : Nat) :
    DeviceTwinCallback s ⟨none, none⟩ now = (DisabledS, now) := rfl

/-- Witness for C4 amended at a concrete Triggered state. -/
theorem C4_amended_witness :
    DeviceTwinCallback TriggeredS ⟨none, none⟩ 7 = (DisabledS, 7) :=
  C4_amended_decode_failure_disables TriggeredS 7

/-- C5: a config update whose decoded Enable/Disable value is `false`
(SetEnabled(false) — delivered on the delta path, or on the flat path with no
delta present) puts the alarm in the Disabled state from any current state,
clearing an active Triggered condition. -/
theorem C5_set_enabled_false_yields_disabled (s : AlarmFlags) (doc : TwinDoc)
    (now : Nat)
    (h : doc.desired = some false ∨ doc.desired = none ∧ doc.flat = some false) :
    (DeviceTwinCallback s doc now).1 = DisabledS := by
  rcases h with h | ⟨h1, h2⟩
  · unfold DeviceTwinCallback
    rw [h]
    rfl
  · unfold DeviceTwinCallback
    rw [h1, h2]
    rfl

/-- Witness for C5: disabling from Triggered, with a conflicting flat value
present, yields Disabled. -/
theorem C5_witness :
    ((TwinDoc.mk (some true) (some false)).desired = some false ∨
        (TwinDoc.mk (some true) (some false)).desired = none ∧
          (TwinDoc.mk (some true) (some false)).flat = some false) ∧
      (DeviceTwinCallback TriggeredS ⟨some true, some false⟩ 0).1 = DisabledS :=
  ⟨Or.inl rfl,
    C5_set_enabled_false_yields_disabled TriggeredS ⟨some true, some false⟩ 0
      (Or.inl rfl)⟩

/-- C6: a local ack (button interrupt) or a remote "stop" method takes the
state from Triggered to Armed, and from Armed or Disabled it is a no-op —
the flags are unchanged. -/
theorem C6_ack_and_stop_semantics (s : AlarmFlags) :
    (s = TriggeredS →
      HandleInterruptStopAlarm s = ArmedS ∧
        (DeviceMethodCallback s "stop").flags = ArmedS) ∧
    (s = ArmedS ∨ s = DisabledS →
      HandleInterruptStopAlarm s = s ∧
        (DeviceMethodCallback s "stop").flags = s) := by
  constructor
  · rintro rfl
    constructor <;> rfl
  · rintro (rfl | rfl) <;> constructor <;> rfl

/-- Witness for C6 at the Triggered and Armed states. -/
theorem C6_witness :
    (HandleInterruptStopAlarm TriggeredS = ArmedS ∧
        (DeviceMethodCallback TriggeredS "stop").flags = ArmedS) ∧
      HandleInterruptStopAlarm ArmedS = ArmedS ∧
        (DeviceMethodCallback ArmedS "stop").flags = ArmedS :=
  ⟨(C6_ack_and_stop_semantics TriggeredS).1 rfl,
    (C6_ack_and_stop_semantics ArmedS).2 (Or.inl rfl)⟩

/-- C7: a cycle publishes the trigger event exactly when the state goes from
Armed into Triggered (the state then is Triggered), and any run of further
cycles starting while Triggered stays Triggered and publishes zero trigger
events. -/
theorem C7_trigger_event_edge_only :
    (∀ (s : AlarmFlags) (d : Int) (now si : Nat),
        ((RunAlarm s d now si).2 = some Msg.trigger ↔
          s.alarm_is_enabled = true ∧ s.alarm_is_triggered = false ∧ d < 70) ∧
        ((RunAlarm s d now si).2 = some Msg.trigger →
          (RunAlarm s d now si).1 = TriggeredS)) ∧
    ∀ (st : SysState) (ps : List (Int × Nat)),
      st.flags.alarm_is_triggered = true →
        (runCycles st ps).1.flags.alarm_is_triggered = true ∧
          Msg.trigger ∉ (runCycles st ps).2 := by
  constructor
  · intro s d now si
    constructor
    · exact RunAlarm_trigger_iff s d now si
    · intro hm
      have := (RunAlarm_trigger_iff s d now si).mp hm
      rcases s with ⟨t, e⟩
      obtain ⟨he, ht, h70⟩ := this
      subst he
      subst ht
      unfold RunAlarm
      rw [if_pos ⟨h70, rfl, rfl⟩]
      rfl
  · intro st ps
    induction ps generalizing st with
    | nil =>
        intro h
        exact ⟨h, by simp [runCycles]⟩
    | cons p ps ih =>
        intro h
        have hr := RunAlarm_of_triggered st.flags p.1 p.2 st.send_interval_ms h
        have hflags : (stepMsg st (Event.cycle p.1 p.2)).1.flags = st.flags := by
          simp [stepMsg, hr.1]
        have hmsg : (stepMsg st (Event.cycle p.1 p.2)).2 ≠ some Msg.trigger := by
          simpa [stepMsg] using hr.2
        have htrig : (stepMsg st (Event.cycle p.1 p.2)).1.flags.alarm_is_triggered
            = true := by rw [hflags]; exact h
        have hrec := ih (stepMsg st (Event.cycle p.1 p.2)).1 htrig
        refine ⟨?_, ?_⟩
        · show (runCycles (stepMsg st (Event.cycle p.1 p.2)).1
            ps).1.flags.alarm_is_triggered = true
          exact hrec.1
        · show Msg.trigger ∉ (stepMsg st (Event.cycle p.1 p.2)).2.toList ++
            (runCycles (stepMsg st (Event.cycle p.1 p.2)).1 ps).2
          intro hmem
          rcases List.mem_append.mp hmem with hm | hm
          · rcases ho : (stepMsg st (Event.cycle p.1 p.2)).2 with _ | m
            · rw [ho] at hm
              simp at hm
            · rw [ho] at hm
              simp at hm
              rw [ho, hm] at hmsg
              exact hmsg rfl
          · exact hrec.2 hm

/-- Witness for C7: the Armed state with distance 10 publishes the trigger
event, and a Triggered state runs one further cycle with no trigger event. -/
theorem C7_witness :
    (RunAlarm ArmedS 10 0 0).2 = some Msg.trigger ∧
      Msg.trigger ∉ (runCycles ⟨TriggeredS, 0⟩ [(10, 0)]).2 :=
  ⟨((C7_trigger_event_edge_only.1 ArmedS 10 0 0).1).mpr (by decide),
    (C7_trigger_event_edge_only.2 ⟨TriggeredS, 0⟩ [(10, 0)] rfl).2⟩

/-- C8: when both the flat path `Enable/Disable.value` and the delta path
`desired.Enable/Disable.value` are present, the delta value determines the
outcome — the result equals that of a document carrying only the delta value,
and the new enabled flag is the delta value. -/
theorem C8_delta_value_takes_precedence (s : AlarmFlags) (now : Nat)
    (b1 b2 : Bool) :
    DeviceTwinCallback s ⟨some b1, some b2⟩ now =
        DeviceTwinCallback s ⟨none, some b2⟩ now ∧
      (DeviceTwinCallback s ⟨some b1, some b2⟩ now).1.alarm_is_enabled = b2 := by
  cases b2 <;> simp [DeviceTwinCallback]

/-- C9: a method invocation with any name other than "stop" returns result
code 404, leaves the flags unchanged, and still carries a non-empty response
payload; the invocation named "stop" returns code 200. -/
theorem C9_unknown_method_404 (s : AlarmFlags) (name : String) :
    (name ≠ "stop" →
      (DeviceMethodCallback s name).result = 404 ∧
        (DeviceMethodCallback s name).flags = s ∧
        0 < (DeviceMethodCallback s name).response.length) ∧
    (DeviceMethodCallback s "stop").result = 200 := by
  constructor
  · intro h
    refine ⟨?_, ?_, ?_⟩
    · simp [DeviceMethodCallback, h]
    · simp [DeviceMethodCallback, h]
    · have hre : (DeviceMethodCallback s name).response = responseMessage := by
        simp [DeviceMethodCallback, h]
      rw [hre]
      decide
  · rfl

/-- Witness for C9 with the method name "ping" in the Armed state. -/
theorem C9_witness :
    "ping" ≠ "stop" ∧
      ((DeviceMethodCallback ArmedS "ping").result = 404 ∧
        (DeviceMethodCallback ArmedS "ping").flags = ArmedS ∧
        0 < (DeviceMethodCallback ArmedS "ping").response.length) :=
  ⟨by decide, (C9_unknown_method_404 ArmedS "ping").1 (by decide)⟩

/-- C10: the implication "triggered implies enabled" is preserved by every
entry point (main cycle, twin/config callback, method callback, button
interrupt), and therefore holds in every state reachable from boot (both
flags false) — the two booleans only ever encode Disabled, Armed and
Triggered. -/
theorem C10_triggered_implies_enabled :
    (∀ (st : SysState) (e : Event),
        (st.flags.alarm_is_triggered = true → st.flags.alarm_is_enabled = true) →
          (step st e).flags.alarm_is_triggered = true →
            (step st e).flags.alarm_is_enabled = true) ∧
    ∀ evs : List Event,
      (run evs).flags.alarm_is_triggered = true →
        (run evs).flags.alarm_is_enabled = true := by
  constructor
  · exact fun st e h => step_preserves_inv st e h
  · intro evs
    exact foldl_preserves_inv evs boot (by intro h; cases h)

/-- Witness for C10: a step from Armed on an intruding cycle keeps the
invariant, and a concrete boot run that ends Triggered is enabled. -/
theorem C10_witness :
    (step ⟨ArmedS, 0⟩ (Event.cycle 10 0)).flags.alarm_is_enabled = true ∧
      (run [Event.twin ⟨none, some true⟩ 0,
        Event.cycle 10 5]).flags.alarm_is_enabled = true :=
  ⟨C10_triggered_implies_enabled.1 ⟨ArmedS, 0⟩ (Event.cycle 10 0) (by decide)
      (by decide),
    C10_triggered_implies_enabled.2
      [Event.twin ⟨none, some true⟩ 0, Event.cycle 10 5] (by decide)⟩

end IoTAlarm
